import Mathlib

/-!
Verification of the MCP demo server (`main.py`): a shallow embedding of the
JSON-RPC method dispatcher, the in-memory session store, and the two built-in
tools, together with theorems settling the specification claims.

Modelling conventions:
* JSON values are the inductive `Json`; Python dicts obtained from parsed JSON
  bodies are association lists `List (String × Json)` with first-match lookup.
* The HTTP layer is out of scope; `mcp` receives the outcome of
  `request.json()` as `Option Json` (`none` models an unparseable body), the
  `mcp-session-id` request header as `Option String`, and the fresh
  `uuid.uuid4().hex` value as an explicit `freshId : String` argument.
* Pydantic (v2) validation of `JsonRpcReq` and `InitializeParams` is embedded
  by the `v*Field` functions; the exact text of `str(e)` diagnostics is
  approximated, their presence and placement is exact.
* A Python runtime crash (unhandled exception, e.g. `.get` on a non-dict)
  is modelled as the HTTP 500 response FastAPI would produce.
-/

inductive Json where
  | null : Json
  | bool : Bool → Json
  | num : Int → Json
  | str : String → Json
  | arr : List Json → Json
  | obj : List (String × Json) → Json

/-- First-match lookup in a parsed JSON object (Python `dict.get(key)`). -/
def getField : List (String × Json) → String → Option Json
  | [], _ => none
  | (a, v) :: t, key => if a = key then some v else getField t key

/-- Python truthiness of a JSON-decoded value (used by `x or {}`). -/
def falsy : Json → Bool
  | Json.null => true
  | Json.bool b => !b
  | Json.num n => n == 0
  | Json.str s => s == ""
  | Json.arr xs => xs.isEmpty
  | Json.obj fs => fs.isEmpty

mutual
/-- Python `json.dumps(v, ensure_ascii=False)` on a JSON value. -/
def dumps : Json → String
  | Json.null => "null"
  | Json.bool true => "true"
  | Json.bool false => "false"
  | Json.num n => toString n
  | Json.str s => "\"" ++ s ++ "\""
  | Json.arr xs => "[" ++ dumpsArr xs ++ "]"
  | Json.obj fs => "\x7b" ++ dumpsObj fs ++ "\x7d"

def dumpsArr : List Json → String
  | [] => ""
  | [x] => dumps x
  | x :: y :: xs => dumps x ++ ", " ++ dumpsArr (y :: xs)

def dumpsObj : List (String × Json) → String
  | [] => ""
  | [(k, v)] => "\"" ++ k ++ "\": " ++ dumps v
  | (k, v) :: f :: fs => "\"" ++ k ++ "\": " ++ dumps v ++ ", " ++ dumpsObj (f :: fs)
end

mutual
/-- Python `repr` of a JSON-decoded value (scalars exact, containers near). -/
def pyRepr : Json → String
  | Json.null => "None"
  | Json.bool true => "True"
  | Json.bool false => "False"
  | Json.num n => toString n
  | Json.str s => "\x27" ++ s ++ "\x27"
  | Json.arr xs => "[" ++ pyReprArr xs ++ "]"
  | Json.obj fs => "\x7b" ++ pyReprObj fs ++ "\x7d"

def pyReprArr : List Json → String
  | [] => ""
  | [x] => pyRepr x
  | x :: y :: xs => pyRepr x ++ ", " ++ pyReprArr (y :: xs)

def pyReprObj : List (String × Json) → String
  | [] => ""
  | [(k, v)] => "\x27" ++ k ++ "\x27: " ++ pyRepr v
  | (k, v) :: f :: fs => "\x27" ++ k ++ "\x27: " ++ pyRepr v ++ ", " ++ pyReprObj (f :: fs)
end

/-- Python `str(v)` as used by an f-string: identity on strings, `repr` shape
on everything else (`str(None) = "None"` in particular). -/
def pyStr : Json → String
  | Json.str s => s
  | v => pyRepr v

/-- Rendering of a possibly-absent value in an f-string: `None` when the
`dict.get` returned nothing. -/
def pyStrOpt : Option Json → String
  | none => "None"
  | some v => pyStr v

/-- The session store `SESSIONS : Dict[str, Dict[str, Any]]`; each session
record holds only its `ready` flag. -/
abbrev Sessions := List (String × Bool)

/-- Dict lookup `SESSIONS.get(sid)` / `sid in SESSIONS`. -/
def lookupS : Sessions → String → Option Bool
  | [], _ => none
  | (a, b) :: t, k => if a = k then some b else lookupS t k

/-- Dict assignment `SESSIONS[sid] = record` (overwrite or append). -/
def insertS : Sessions → String → Bool → Sessions
  | [], k, v => [(k, v)]
  | (a, b) :: t, k, v => if a = k then (k, v) :: t else (a, b) :: insertS t k v

/-- The mutation `SESSIONS[sid]["ready"] = True`. -/
def setReady : Sessions → String → Sessions
  | [], _ => []
  | (a, b) :: t, k => if a = k then (a, true) :: t else (a, b) :: setReady t k

/-- The guard `not mcp_session_id or mcp_session_id not in SESSIONS`. -/
def sessionInvalid (s : Sessions) (hdr : Option String) : Bool :=
  match hdr with
  | none => true
  | some h => if h = "" then true else (lookupS s h).isNone

/-- HTTP response: status code, JSON body, and the `mcp-session-id`
response header when the handler sets one. -/
structure HttpResponse where
  status : Nat
  body : Json
  sessionHeader : Option String

/-- JSON rendering of a request id recovered by pydantic (`None` encodes to
`null`). -/
def idJson : Option String → Json
  | none => Json.null
  | some s => Json.str s

/-- The `_ok` helper: success envelope. -/
def okBody (id : Json) (result : Json) : Json :=
  Json.obj [("jsonrpc", Json.str "2.0"), ("id", id), ("result", result)]

/-- The `_err` helper: error envelope with optional string `data`. -/
def errBody (id : Json) (code : Int) (message : String) (data : Option String) : Json :=
  Json.obj [("jsonrpc", Json.str "2.0"), ("id", id),
    ("error", Json.obj ([("code", Json.num code), ("message", Json.str message)] ++
      (match data with
       | some d => [("data", Json.str d)]
       | none => [])))]

/-- The pydantic model `JsonRpcReq` after successful validation. -/
structure JsonRpcReq where
  jsonrpc : String
  id : Option String
  method : String
  params : Option (List (String × Json))

/-- Pydantic: a required `str` field. -/
def vStrField (fields : List (String × Json)) (key : String) : Except String String :=
  match getField fields key with
  | some (Json.str s) => Except.ok s
  | some _ => Except.error (key ++ ": Input should be a valid string")
  | none => Except.error (key ++ ": Field required")

/-- Pydantic: an `Optional[str] = None` field. -/
def vOptStrField (fields : List (String × Json)) (key : String) :
    Except String (Option String) :=
  match getField fields key with
  | none => Except.ok none
  | some Json.null => Except.ok none
  | some (Json.str s) => Except.ok (some s)
  | some _ => Except.error (key ++ ": Input should be a valid string")

/-- Pydantic: a required `Dict[str, Any]` field. -/
def vObjField (fields : List (String × Json)) (key : String) :
    Except String (List (String × Json)) :=
  match getField fields key with
  | some (Json.obj fs) => Except.ok fs
  | some _ => Except.error (key ++ ": Input should be a valid dictionary")
  | none => Except.error (key ++ ": Field required")

/-- Pydantic: an `Optional[Dict[str, Any]] = None` field. -/
def vOptObjField (fields : List (String × Json)) (key : String) :
    Except String (Option (List (String × Json))) :=
  match getField fields key with
  | none => Except.ok none
  | some Json.null => Except.ok none
  | some (Json.obj fs) => Except.ok (some fs)
  | some _ => Except.error (key ++ ": Input should be a valid dictionary")

/-- `JsonRpcReq(**payload)` on an object payload: `jsonrpc` and `method` are
required strings, `id` an optional string, `params` an optional dict; extra
keys are ignored. -/
def parseJsonRpcReq (fields : List (String × Json)) : Except String JsonRpcReq :=
  match vStrField fields "jsonrpc", vOptStrField fields "id",
        vStrField fields "method", vOptObjField fields "params" with
  | Except.ok j, Except.ok i, Except.ok m, Except.ok p =>
      Except.ok ⟨j, i, m, p⟩
  | Except.error e, _, _, _ => Except.error e
  | _, Except.error e, _, _ => Except.error e
  | _, _, Except.error e, _ => Except.error e
  | _, _, _, Except.error e => Except.error e

/-- `InitializeParams(**(req.params or {}))`: required `protocolVersion : str`,
`clientInfo : Dict`, `capabilities : Dict`. -/
def validateInitializeParams (ps : List (String × Json)) : Except String Unit :=
  match vStrField ps "protocolVersion", vObjField ps "clientInfo",
        vObjField ps "capabilities" with
  | Except.ok _, Except.ok _, Except.ok _ => Except.ok ()
  | Except.error e, _, _ => Except.error e
  | _, Except.error e, _ => Except.error e
  | _, _, Except.error e => Except.error e

/-- The fixture table `FIX` of `get_student_profile`. -/
def FIX : List (String × Json) :=
  [("student_en_001", Json.obj [
      ("id", Json.str "student_en_001"), ("first_name", Json.str "Ava"),
      ("last_name", Json.str "Johnson"), ("language", Json.str "en"),
      ("eligible_fafsa", Json.bool true), ("year", Json.str "2025–26"),
      ("dependency", Json.str "dependent"),
      ("parent_status_2023", Json.str "divorced"),
      ("contributors_expected", Json.num 2),
      ("schools", Json.arr [Json.str "Harvard University"])]),
   ("student_es_001", Json.obj [
      ("id", Json.str "student_es_001"), ("first_name", Json.str "Mateo"),
      ("last_name", Json.str "García"), ("language", Json.str "es"),
      ("eligible_fafsa", Json.bool true), ("year", Json.str "2025–26"),
      ("dependency", Json.str "dependent"),
      ("parent_status_2023", Json.str "divorciado"),
      ("contributors_expected", Json.num 2),
      ("schools", Json.arr [Json.str "Universidad de Harvard"])])]

/-- The `tools/list` payload: the two registered tool descriptors. -/
def toolsList : Json :=
  Json.arr [
    Json.obj [
      ("name", Json.str "ping"),
      ("description", Json.str "health check"),
      ("inputSchema", Json.obj [
        ("type", Json.str "object"),
        ("properties", Json.obj [
          ("message", Json.obj [("type", Json.str "string")])])])],
    Json.obj [
      ("name", Json.str "get_student_profile"),
      ("description", Json.str "Lookup by student_id"),
      ("inputSchema", Json.obj [
        ("type", Json.str "object"),
        ("required", Json.arr [Json.str "student_id"]),
        ("properties", Json.obj [
          ("student_id", Json.obj [("type", Json.str "string")])])])]]

/-- `(req.params or {}).get("arguments") or {}`, then `.get` on the result:
`none` means a later `.get` raises (truthy non-dict arguments). -/
def argsOf (params : List (String × Json)) : Option (List (String × Json)) :=
  match getField params "arguments" with
  | none => some []
  | some v =>
    if falsy v then some []
    else match v with
      | Json.obj fs => some fs
      | _ => none

/-- FastAPI response to an unhandled exception in the handler. -/
def crashResponse : HttpResponse :=
  { status := 500, body := Json.str "Internal Server Error", sessionHeader := none }

/-- A single text content block. -/
def textBlock (t : String) : Json :=
  Json.obj [("type", Json.str "text"), ("text", Json.str t)]

/-- The miss payload of `get_student_profile`. -/
def missObj (sid : Json) : Json :=
  Json.obj [("error", Json.str "not found"), ("student_id", sid)]

/-- Tool-call result of `get_student_profile` on a hit. -/
def profileHitResult (profile : Json) : Json :=
  Json.obj [
    ("content", Json.arr [textBlock (dumps profile)]),
    ("structuredContent", profile),
    ("isError", Json.bool false)]

/-- Tool-call result of `get_student_profile` on a miss. -/
def profileMissResult (sid : Json) : Json :=
  Json.obj [
    ("content", Json.arr [textBlock (dumps (missObj sid))]),
    ("structuredContent", missObj sid),
    ("isError", Json.bool false)]

/-- Response of the `tools/call` branch, given the echoed id and
`req.params or {}`; this branch never touches the session store. -/
def toolsCallResp (rid : Json) (params : List (String × Json)) : HttpResponse :=
  match getField params "name" with
  | some (Json.str n) =>
    if n = "ping" then
      match argsOf params with
      | none => crashResponse
      | some args =>
        let msg := (getField args "message").getD (Json.str "")
        { status := 200,
          body := okBody rid (Json.obj [
            ("content", Json.arr [textBlock ("pong: " ++ pyStr msg)]),
            ("structuredContent", Json.obj [("ok", Json.bool true)])]),
          sessionHeader := none }
    else if n = "get_student_profile" then
      match argsOf params with
      | none => crashResponse
      | some args =>
        match (getField args "student_id").getD (Json.str "") with
        | Json.arr _ => crashResponse
        | Json.obj _ => crashResponse
        | Json.str sid =>
          match getField FIX sid with
          | some profile =>
            { status := 200, body := okBody rid (profileHitResult profile),
              sessionHeader := none }
          | none =>
            { status := 200, body := okBody rid (profileMissResult (Json.str sid)),
              sessionHeader := none }
        | v =>
          { status := 200, body := okBody rid (profileMissResult v),
            sessionHeader := none }
    else
      { status := 200,
        body := errBody rid (-32601) ("Unknown tool \x27" ++ n ++ "\x27") none,
        sessionHeader := none }
  | other =>
    { status := 200,
      body := errBody rid (-32601) ("Unknown tool \x27" ++ pyStrOpt other ++ "\x27") none,
      sessionHeader := none }

/-- The `tools/call` branch of the handler. -/
def toolsCall (sessions : Sessions) (rid : Json) (params : List (String × Json)) :
    Sessions × HttpResponse :=
  (sessions, toolsCallResp rid params)

/-- Method dispatch on a validated request (the body of `mcp` after the two
decode steps). -/
def dispatch (sessions : Sessions) (freshId : String) (hdr : Option String)
    (req : JsonRpcReq) : Sessions × HttpResponse :=
  if req.method = "initialize" then
    match validateInitializeParams (req.params.getD []) with
    | Except.error e =>
      (sessions,
       { status := 400,
         body := errBody (idJson req.id) (-32602) "Invalid request parameters" (some e),
         sessionHeader := none })
    | Except.ok _ =>
      (insertS sessions freshId false,
       { status := 200,
         body := okBody (idJson req.id) (Json.obj [
           ("protocolVersion", Json.str "2024-11-05"),
           ("capabilities", Json.obj []),
           ("sessionId", Json.str freshId)]),
         sessionHeader := some freshId })
  else if sessionInvalid sessions hdr then
    (sessions,
     { status := 400,
       body := errBody (idJson req.id) (-32000) "Missing or invalid session" none,
       sessionHeader := none })
  else if req.method = "notifications/initialized" then
    (setReady sessions (hdr.getD ""),
     { status := 202, body := Json.obj [], sessionHeader := none })
  else if req.method = "tools/list" then
    (sessions,
     { status := 200,
       body := okBody (idJson req.id) (Json.obj [("tools", toolsList)]),
       sessionHeader := none })
  else if req.method = "tools/call" then
    toolsCall sessions (idJson req.id) (req.params.getD [])
  else
    (sessions,
     { status := 200,
       body := errBody (idJson req.id) (-32601)
         ("Unknown method \x27" ++ req.method ++ "\x27") none,
       sessionHeader := none })

/-- The POST `/mcp` handler. `payload` is the outcome of `request.json()`
(`none`: the body was not parseable as JSON). -/
def mcp (sessions : Sessions) (freshId : String) (hdr : Option String)
    (payload : Option Json) : Sessions × HttpResponse :=
  match payload with
  | none =>
    (sessions,
     { status := 400, body := errBody Json.null (-32700) "Parse error" none,
       sessionHeader := none })
  | some (Json.obj fields) =>
    match parseJsonRpcReq fields with
    | Except.error e =>
      (sessions,
       { status := 400, body := errBody Json.null (-32600) "Invalid Request" (some e),
         sessionHeader := none })
    | Except.ok req => dispatch sessions freshId hdr req
  | some _ =>
    (sessions,
     { status := 400,
       body := errBody Json.null (-32600) "Invalid Request"
         (some "argument after ** must be a mapping"),
       sessionHeader := none })

/-- Field access on an object-shaped response body. -/
def bodyField (b : Json) (k : String) : Option Json :=
  match b with
  | Json.obj fs => getField fs k
  | _ => none

/-- The `error.code` of a response body, when the body is an error envelope. -/
def errorCode (b : Json) : Option Json :=
  match bodyField b "error" with
  | some (Json.obj es) => getField es "code"
  | _ => none

/-- The `error.message` of an error envelope. -/
def errorMessage (b : Json) : Option Json :=
  match bodyField b "error" with
  | some (Json.obj es) => getField es "message"
  | _ => none

/-- The `error.data` of an error envelope. -/
def errorData (b : Json) : Option Json :=
  match bodyField b "error" with
  | some (Json.obj es) => getField es "data"
  | _ => none

/-- Whether the body carries an `error` member. -/
def hasError (b : Json) : Bool :=
  (bodyField b "error").isSome

/-- Whether the body carries a `result` member. -/
def hasResult (b : Json) : Bool :=
  (bodyField b "result").isSome

/-- The JSON-RPC envelope invariant: exactly one of `result` / `error`. -/
def exactlyOneOf (b : Json) : Bool :=
  (hasResult b && !hasError b) || (!hasResult b && hasError b)

/-- Whether a JSON value is object-shaped. -/
def isObj : Json → Bool
  | Json.obj _ => true
  | _ => false

/-- Envelope fields of a well-formed request: literal `"2.0"` tag, optional
string id, a method, optional object params. -/
def mkFields (jid : Option String) (method : String)
    (ps : Option (List (String × Json))) : List (String × Json) :=
  [("jsonrpc", Json.str "2.0")] ++
  (match jid with
   | some i => [("id", Json.str i)]
   | none => []) ++
  [("method", Json.str method)] ++
  (match ps with
   | some p => [("params", Json.obj p)]
   | none => [])

/-- A well-formed request body. -/
def mkPayload (jid : Option String) (method : String)
    (ps : Option (List (String × Json))) : Json :=
  Json.obj (mkFields jid method ps)

/-- Whether an optional JSON value is a string (pydantic `str` shape). -/
def isStrVal : Option Json → Bool
  | some (Json.str _) => true
  | _ => false

/-- Whether an optional JSON value is an object (pydantic `Dict` shape). -/
def isObjVal : Option Json → Bool
  | some (Json.obj _) => true
  | _ => false

/-- Shape of a well-formed `InitializeParams` payload: string
`protocolVersion`, object `clientInfo`, object `capabilities`. -/
def initParamsOk (ps : List (String × Json)) : Bool :=
  isStrVal (getField ps "protocolVersion") &&
  isObjVal (getField ps "clientInfo") &&
  isObjVal (getField ps "capabilities")

/-- The `tools/call` params used to invoke `get_student_profile`. -/
def profileParams (argFields : List (String × Json)) : List (String × Json) :=
  [("name", Json.str "get_student_profile"), ("arguments", Json.obj argFields)]

/-- A well-formed `InitializeParams` payload as sent by a conforming client. -/
def validInitParams : List (String × Json) :=
  [("protocolVersion", Json.str "2024-11-05"),
   ("clientInfo", Json.obj []),
   ("capabilities", Json.obj [])]

lemma bodyField_okBody_id (i r : Json) : bodyField (okBody i r) "id" = some i := rfl

lemma bodyField_okBody_result (i r : Json) : bodyField (okBody i r) "result" = some r := rfl

lemma hasError_okBody (i r : Json) : hasError (okBody i r) = false := rfl

lemma bodyField_errBody_id (i : Json) (c : Int) (m : String) (d : Option String) :
    bodyField (errBody i c m d) "id" = some i := by
  cases d <;> rfl

lemma errorCode_errBody (i : Json) (c : Int) (m : String) (d : Option String) :
    errorCode (errBody i c m d) = some (Json.num c) := by
  cases d <;> rfl

lemma errorMessage_errBody (i : Json) (c : Int) (m : String) (d : Option String) :
    errorMessage (errBody i c m d) = some (Json.str m) := by
  cases d <;> rfl

lemma hasResult_errBody (i : Json) (c : Int) (m : String) (d : Option String) :
    hasResult (errBody i c m d) = false := by
  cases d <;> rfl

lemma hasError_errBody (i : Json) (c : Int) (m : String) (d : Option String) :
    hasError (errBody i c m d) = true := by
  cases d <;> rfl

lemma exactlyOneOf_okBody (i r : Json) : exactlyOneOf (okBody i r) = true := rfl

lemma exactlyOneOf_errBody (i : Json) (c : Int) (m : String) (d : Option String) :
    exactlyOneOf (errBody i c m d) = true := by
  cases d <;> rfl

lemma lookupS_setReady (s : Sessions) (k h : String) :
    lookupS (setReady s k) h =
      (lookupS s h).map (fun b => if h = k then true else b) := by
  induction s with
  | nil => rfl
  | cons p t ih =>
    obtain ⟨a, b⟩ := p
    by_cases hak : a = k
    · subst hak
      by_cases hah : a = h
      · subst hah
        simp [setReady, lookupS]
      · have hhk : ¬h = a := fun e => hah e.symm
        simp only [setReady, if_pos rfl, lookupS, if_neg hah]
        cases lookupS t h <;> simp [hhk]
    · by_cases hah : a = h
      · subst hah
        by_cases hhk : a = k
        · exact absurd hhk hak
        · simp [setReady, lookupS, hak, hhk]
      · simp [setReady, lookupS, hak, hah, ih]

lemma sessionInvalid_setReady (s : Sessions) (k : String) (hdr : Option String) :
    sessionInvalid (setReady s k) hdr = sessionInvalid s hdr := by
  cases hdr with
  | none => rfl
  | some h =>
    simp only [sessionInvalid, lookupS_setReady]
    cases lookupS s h <;> simp

lemma lookupS_insertS_self (s : Sessions) (k : String) (v : Bool) :
    lookupS (insertS s k v) k = some v := by
  induction s with
  | nil => simp [insertS, lookupS]
  | cons p t ih =>
    obtain ⟨a, b⟩ := p
    by_cases hak : a = k
    · simp [insertS, hak, lookupS]
    · simp [insertS, hak, lookupS, ih]

/-- C3: an unparseable body yields HTTP 400 with code -32700 and null id; a
parseable but non-object body (array or scalar) yields HTTP 400 with code
-32600 and null id. -/
theorem malformed_body_rejected (s : Sessions) (fresh : String) (hdr : Option String) :
    mcp s fresh hdr none =
      (s, ⟨400, errBody Json.null (-32700) "Parse error" none, none⟩) ∧
    ∀ v : Json, isObj v = false →
      ∃ d, mcp s fresh hdr (some v) =
        (s, ⟨400, errBody Json.null (-32600) "Invalid Request" (some d), none⟩) := by
  constructor
  · rfl
  · intro v hv
    cases v with
    | null => exact ⟨_, rfl⟩
    | bool b => exact ⟨_, rfl⟩
    | num n => exact ⟨_, rfl⟩
    | str s => exact ⟨_, rfl⟩
    | arr xs => exact ⟨_, rfl⟩
    | obj fs => simp [isObj] at hv

/-- Witness for C3 at concrete inputs (empty store, array body). -/
theorem malformed_body_rejected_witness :
    mcp [] "f" none none =
      ([], ⟨400, errBody Json.null (-32700) "Parse error" none, none⟩) ∧
    ∃ d, mcp [] "f" none (some (Json.arr [])) =
      ([], ⟨400, errBody Json.null (-32600) "Invalid Request" (some d), none⟩) :=
  ⟨(malformed_body_rejected [] "f" none).1,
   (malformed_body_rejected [] "f" none).2 (Json.arr []) rfl⟩

/-- C1: any validated request whose method is not `initialize`, arriving with
no session header or with an identifier that is not a key of the session
store, is answered with HTTP 400, code -32000, message
"Missing or invalid session", whatever the method is; the store is untouched. -/
theorem session_gate (s : Sessions) (fresh : String) (hdr : Option String)
    (fields : List (String × Json)) (req : JsonRpcReq)
    (hp : parseJsonRpcReq fields = Except.ok req)
    (hm : req.method ≠ "initialize")
    (hs : hdr = none ∨ ∃ h, hdr = some h ∧ lookupS s h = none) :
    mcp s fresh hdr (some (Json.obj fields)) =
      (s, ⟨400, errBody (idJson req.id) (-32000) "Missing or invalid session" none,
          none⟩) := by
  have h2 : sessionInvalid s hdr = true := by
    rcases hs with rfl | ⟨h, rfl, hl⟩
    · rfl
    · simp [sessionInvalid, hl]
  simp only [mcp, hp, dispatch, h2, if_true]
  rw [if_neg hm]

/-- Witness for C1: unknown store key, recognized method `tools/list`. -/
theorem session_gate_witness :
    mcp [("k", false)] "f" (some "other")
      (some (Json.obj [("jsonrpc", Json.str "2.0"),
                       ("method", Json.str "tools/list")])) =
      ([("k", false)],
       ⟨400, errBody Json.null (-32000) "Missing or invalid session" none, none⟩) :=
  session_gate [("k", false)] "f" (some "other") _ ⟨"2.0", none, "tools/list", none⟩
    rfl (by decide) (Or.inr ⟨"other", rfl, rfl⟩)

lemma parse_mkFields (jid : Option String) (method : String)
    (ps : Option (List (String × Json))) :
    parseJsonRpcReq (mkFields jid method ps) = Except.ok ⟨"2.0", jid, method, ps⟩ := by
  cases jid <;> cases ps <;> rfl

lemma parse_fails_of_no_method (fields : List (String × Json))
    (hm : getField fields "method" = none) :
    ∃ e, parseJsonRpcReq fields = Except.error e := by
  have hmeth : vStrField fields "method" = Except.error ("method" ++ ": Field required") := by
    simp [vStrField, hm]
  unfold parseJsonRpcReq
  rcases h1 : vStrField fields "jsonrpc" with e1 | j <;>
    rcases h2 : vOptStrField fields "id" with e2 | i <;>
    rcases h4 : vOptObjField fields "params" with e4 | p <;>
    rw [hmeth] <;>
    exact ⟨_, rfl⟩

lemma dispatch_initialize_ok (s : Sessions) (fresh : String) (hdr : Option String)
    (j : String) (jid : Option String) (ps : Option (List (String × Json)))
    (hval : validateInitializeParams (ps.getD []) = Except.ok ()) :
    dispatch s fresh hdr ⟨j, jid, "initialize", ps⟩ =
      (insertS s fresh false,
       ⟨200, okBody (idJson jid) (Json.obj [
          ("protocolVersion", Json.str "2024-11-05"),
          ("capabilities", Json.obj []),
          ("sessionId", Json.str fresh)]),
        some fresh⟩) := by
  unfold dispatch
  rw [if_pos rfl, hval]

lemma dispatch_initialize_err (s : Sessions) (fresh : String) (hdr : Option String)
    (j : String) (jid : Option String) (ps : Option (List (String × Json)))
    (e : String) (hval : validateInitializeParams (ps.getD []) = Except.error e) :
    dispatch s fresh hdr ⟨j, jid, "initialize", ps⟩ =
      (s, ⟨400, errBody (idJson jid) (-32602) "Invalid request parameters" (some e),
          none⟩) := by
  unfold dispatch
  rw [if_pos rfl, hval]

lemma dispatch_notifications (s : Sessions) (fresh : String) (hdr : Option String)
    (j : String) (jid : Option String) (ps : Option (List (String × Json)))
    (hv : sessionInvalid s hdr = false) :
    dispatch s fresh hdr ⟨j, jid, "notifications/initialized", ps⟩ =
      (setReady s (hdr.getD ""), ⟨202, Json.obj [], none⟩) := by
  unfold dispatch
  rw [if_neg (by decide : ¬("notifications/initialized" = "initialize"))]
  simp only [hv, Bool.false_eq_true, if_false]
  simp

lemma dispatch_toolsList (s : Sessions) (fresh : String) (hdr : Option String)
    (j : String) (jid : Option String) (ps : Option (List (String × Json)))
    (hv : sessionInvalid s hdr = false) :
    dispatch s fresh hdr ⟨j, jid, "tools/list", ps⟩ =
      (s, ⟨200, okBody (idJson jid) (Json.obj [("tools", toolsList)]), none⟩) := by
  unfold dispatch
  rw [if_neg (by decide : ¬("tools/list" = "initialize"))]
  simp only [hv, Bool.false_eq_true, if_false]
  rw [if_neg (by decide : ¬("tools/list" = "notifications/initialized"))]
  simp

lemma dispatch_toolsCall (s : Sessions) (fresh : String) (hdr : Option String)
    (j : String) (jid : Option String) (ps : Option (List (String × Json)))
    (hv : sessionInvalid s hdr = false) :
    dispatch s fresh hdr ⟨j, jid, "tools/call", ps⟩ =
      toolsCall s (idJson jid) (ps.getD []) := by
  unfold dispatch
  rw [if_neg (by decide : ¬("tools/call" = "initialize"))]
  simp only [hv, Bool.false_eq_true, if_false]
  rw [if_neg (by decide : ¬("tools/call" = "notifications/initialized")),
      if_neg (by decide : ¬("tools/call" = "tools/list"))]
  simp

lemma dispatch_unknown_method (s : Sessions) (fresh : String) (hdr : Option String)
    (j : String) (jid : Option String) (ps : Option (List (String × Json)))
    (m : String) (hv : sessionInvalid s hdr = false)
    (hm1 : m ≠ "initialize") (hm2 : m ≠ "notifications/initialized")
    (hm3 : m ≠ "tools/list") (hm4 : m ≠ "tools/call") :
    dispatch s fresh hdr ⟨j, jid, m, ps⟩ =
      (s, ⟨200, errBody (idJson jid) (-32601)
        ("Unknown method \x27" ++ m ++ "\x27") none, none⟩) := by
  unfold dispatch
  rw [if_neg hm1]
  simp only [hv, Bool.false_eq_true, if_false]
  rw [if_neg hm2, if_neg hm3, if_neg hm4]

/-- C5 (counterexample): a body with `jsonrpc` and `id` but no `method` is
rejected by envelope validation with -32600 and HTTP 400; it does not reach
the unknown-method branch, so the code is not -32601 as the claim states. -/
theorem missing_method_not_unknown_method :
    errorCode (mcp [] "f" none (some (Json.obj
      [("jsonrpc", Json.str "2.0"), ("id", Json.str "1")]))).2.body =
        some (Json.num (-32600)) ∧
    errorCode (mcp [] "f" none (some (Json.obj
      [("jsonrpc", Json.str "2.0"), ("id", Json.str "1")]))).2.body ≠
        some (Json.num (-32601)) ∧
    (mcp [] "f" none (some (Json.obj
      [("jsonrpc", Json.str "2.0"), ("id", Json.str "1")]))).2.status = 400 := by
  refine ⟨rfl, ?_, rfl⟩
  intro h
  rw [show errorCode (mcp [] "f" none (some (Json.obj
      [("jsonrpc", Json.str "2.0"), ("id", Json.str "1")]))).2.body =
    some (Json.num (-32600)) from rfl] at h
  injection h with h1
  injection h1 with h2
  exact absurd h2 (by decide)

/-- C5 (amended): an object body lacking `method` fails pydantic validation of
the envelope: the response is HTTP 400 with -32600 Invalid Request and null
id, and the store is untouched; dispatch is never reached. -/
theorem missing_method_invalid_request (s : Sessions) (fresh : String)
    (hdr : Option String) (fields : List (String × Json))
    (hm : getField fields "method" = none) :
    ∃ d, mcp s fresh hdr (some (Json.obj fields)) =
      (s, ⟨400, errBody Json.null (-32600) "Invalid Request" (some d), none⟩) := by
  obtain ⟨e, he⟩ := parse_fails_of_no_method fields hm
  exact ⟨e, by simp [mcp, he]⟩

/-- Witness for the amended C5: concrete body with only `jsonrpc`. -/
theorem missing_method_invalid_request_witness :
    ∃ d, mcp [] "f" none (some (Json.obj [("jsonrpc", Json.str "2.0")])) =
      ([], ⟨400, errBody Json.null (-32600) "Invalid Request" (some d), none⟩) :=
  missing_method_invalid_request [] "f" none _ rfl

/-- C10: a `tools/call` under a valid session with params lacking `name` (or
with no params at all) is answered with -32601 and the literal message
`Unknown tool 'None'`: the absent name is rendered as Python `None`. -/
theorem missing_tool_name_unknown_none (s : Sessions) (fresh h : String)
    (jid : Option String) (hv : sessionInvalid s (some h) = false) :
    mcp s fresh (some h) (some (mkPayload jid "tools/call" none)) =
      (s, ⟨200, errBody (idJson jid) (-32601) "Unknown tool \x27None\x27" none, none⟩) ∧
    ∀ ps : List (String × Json), getField ps "name" = none →
      mcp s fresh (some h) (some (mkPayload jid "tools/call" (some ps))) =
        (s, ⟨200, errBody (idJson jid) (-32601) "Unknown tool \x27None\x27" none,
            none⟩) := by
  constructor
  · simp only [mcp, mkPayload, parse_mkFields]
    rw [dispatch_toolsCall _ _ _ _ _ _ hv]
    rfl
  · intro ps hn
    simp only [mcp, mkPayload, parse_mkFields]
    rw [dispatch_toolsCall _ _ _ _ _ _ hv]
    simp only [toolsCall, toolsCallResp, Option.getD, hn]
    rfl

/-- Witness for C10: single live session, params present but without `name`. -/
theorem missing_tool_name_unknown_none_witness :
    mcp [("k", false)] "f" (some "k") (some (mkPayload (some "9") "tools/call" none)) =
      ([("k", false)],
       ⟨200, errBody (idJson (some "9")) (-32601) "Unknown tool \x27None\x27" none,
        none⟩) ∧
    mcp [("k", false)] "f" (some "k")
        (some (mkPayload (some "9") "tools/call" (some [("arguments", Json.obj [])]))) =
      ([("k", false)],
       ⟨200, errBody (idJson (some "9")) (-32601) "Unknown tool \x27None\x27" none,
        none⟩) :=
  ⟨(missing_tool_name_unknown_none [("k", false)] "f" "k" (some "9") rfl).1,
   (missing_tool_name_unknown_none [("k", false)] "f" "k" (some "9") rfl).2
     [("arguments", Json.obj [])] rfl⟩

/-- C8: under a valid session, an unrecognized method is answered with -32601
and the message `Unknown method '<m>'` naming it, and a `tools/call` for an
unregistered tool name with -32601 and `Unknown tool '<t>'` naming it; the
store is untouched in both cases. -/
theorem unknown_method_or_tool (s : Sessions) (fresh h : String)
    (jid : Option String) (hv : sessionInvalid s (some h) = false) :
    (∀ m : String, m ≠ "initialize" → m ≠ "notifications/initialized" →
      m ≠ "tools/list" → m ≠ "tools/call" →
      mcp s fresh (some h) (some (mkPayload jid m none)) =
        (s, ⟨200, errBody (idJson jid) (-32601)
          ("Unknown method \x27" ++ m ++ "\x27") none, none⟩)) ∧
    (∀ t : String, t ≠ "ping" → t ≠ "get_student_profile" →
      mcp s fresh (some h)
          (some (mkPayload jid "tools/call" (some [("name", Json.str t)]))) =
        (s, ⟨200, errBody (idJson jid) (-32601)
          ("Unknown tool \x27" ++ t ++ "\x27") none, none⟩)) := by
  constructor
  · intro m hm1 hm2 hm3 hm4
    simp only [mcp, mkPayload, parse_mkFields]
    rw [dispatch_unknown_method _ _ _ _ _ _ _ hv hm1 hm2 hm3 hm4]
  · intro t ht1 ht2
    simp only [mcp, mkPayload, parse_mkFields]
    rw [dispatch_toolsCall _ _ _ _ _ _ hv]
    simp only [toolsCall, toolsCallResp, Option.getD, getField, if_true]
    rw [if_neg ht1, if_neg ht2]

/-- Witness for C8: method `frobnicate`, tool `frobnicate`. -/
theorem unknown_method_or_tool_witness :
    mcp [("k", false)] "f" (some "k") (some (mkPayload none "frobnicate" none)) =
      ([("k", false)],
       ⟨200, errBody (idJson none) (-32601) "Unknown method \x27frobnicate\x27" none,
        none⟩) ∧
    mcp [("k", false)] "f" (some "k")
        (some (mkPayload none "tools/call" (some [("name", Json.str "frobnicate")]))) =
      ([("k", false)],
       ⟨200, errBody (idJson none) (-32601) "Unknown tool \x27frobnicate\x27" none,
        none⟩) :=
  ⟨(unknown_method_or_tool [("k", false)] "f" "k" none rfl).1 "frobnicate"
     (by decide) (by decide) (by decide) (by decide),
   (unknown_method_or_tool [("k", false)] "f" "k" none rfl).2 "frobnicate"
     (by decide) (by decide)⟩

lemma isStrVal_true_iff (fields : List (String × Json)) (key : String) :
    isStrVal (getField fields key) = true ↔ ∃ v, vStrField fields key = Except.ok v := by
  unfold isStrVal vStrField
  rcases getField fields key with _ | v
  · simp
  · cases v <;> simp

lemma isObjVal_true_iff (fields : List (String × Json)) (key : String) :
    isObjVal (getField fields key) = true ↔ ∃ v, vObjField fields key = Except.ok v := by
  unfold isObjVal vObjField
  rcases getField fields key with _ | v
  · simp
  · cases v <;> simp

lemma validateInit_err (ps : List (String × Json)) (hb : initParamsOk ps = false) :
    ∃ e, validateInitializeParams ps = Except.error e := by
  unfold validateInitializeParams
  rcases g1 : vStrField ps "protocolVersion" with e1 | v1 <;>
    rcases g2 : vObjField ps "clientInfo" with e2 | v2 <;>
    rcases g3 : vObjField ps "capabilities" with e3 | v3 <;>
    try exact ⟨_, rfl⟩
  exfalso
  have h1 : isStrVal (getField ps "protocolVersion") = true :=
    (isStrVal_true_iff ps "protocolVersion").mpr ⟨v1, g1⟩
  have h2 : isObjVal (getField ps "clientInfo") = true :=
    (isObjVal_true_iff ps "clientInfo").mpr ⟨v2, g2⟩
  have h3 : isObjVal (getField ps "capabilities") = true :=
    (isObjVal_true_iff ps "capabilities").mpr ⟨v3, g3⟩
  unfold initParamsOk at hb
  rw [h1, h2, h3] at hb
  simp at hb

/-- C7: an `initialize` whose params are missing or wrongly shaped
(`protocolVersion` not a string, `clientInfo` or `capabilities` not an
object) is answered with HTTP 400 and -32602 carrying a diagnostic string in
`error.data`; the store is unchanged, so no session is created. -/
theorem strict_initialize_param_validation (s : Sessions) (fresh : String)
    (hdr : Option String) (jid : Option String) (ps : List (String × Json))
    (hb : initParamsOk ps = false) :
    ∃ d, mcp s fresh hdr (some (mkPayload jid "initialize" (some ps))) =
      (s, ⟨400, errBody (idJson jid) (-32602) "Invalid request parameters" (some d),
          none⟩) := by
  obtain ⟨e, he⟩ := validateInit_err ps hb
  refine ⟨e, ?_⟩
  simp only [mcp, mkPayload, parse_mkFields]
  exact dispatch_initialize_err s fresh hdr "2.0" jid (some ps) e he

/-- Witness for C7: empty params object (all three fields missing). -/
theorem strict_initialize_param_validation_witness :
    ∃ d, mcp [] "f" none (some (mkPayload (some "1") "initialize" (some []))) =
      ([], ⟨400, errBody (idJson (some "1")) (-32602) "Invalid request parameters"
          (some d), none⟩) :=
  strict_initialize_param_validation [] "f" none (some "1") [] rfl

lemma toolsCallResp_profile (rid : Json) (sid : String) :
    toolsCallResp rid (profileParams [("student_id", Json.str sid)]) =
      (match getField FIX sid with
       | some profile =>
         { status := 200, body := okBody rid (profileHitResult profile),
           sessionHeader := none }
       | none =>
         { status := 200, body := okBody rid (profileMissResult (Json.str sid)),
           sessionHeader := none }) := rfl

/-- C2: a `tools/call` of `get_student_profile` under a valid session returns,
on a fixture hit, a 200 success whose result carries the profile as the
JSON-encoded text block and as `structuredContent` with `isError = false`
(and `student_en_001` has `first_name = "Ava"`); on a miss, a 200 success —
not an error envelope — whose text and `structuredContent` are the not-found
record echoing the supplied id, `isError = false`; an absent `student_id`
defaults to the empty string and takes the miss branch. -/
theorem get_student_profile_behavior (s : Sessions) (fresh h : String)
    (jid : Option String) (hv : sessionInvalid s (some h) = false) :
    (∀ sid profile, getField FIX sid = some profile →
      mcp s fresh (some h) (some (mkPayload jid "tools/call"
          (some (profileParams [("student_id", Json.str sid)])))) =
        (s, ⟨200, okBody (idJson jid) (profileHitResult profile), none⟩)) ∧
    (∃ fs, getField FIX "student_en_001" = some (Json.obj fs) ∧
      getField fs "first_name" = some (Json.str "Ava")) ∧
    (∀ sid, getField FIX sid = none →
      mcp s fresh (some h) (some (mkPayload jid "tools/call"
          (some (profileParams [("student_id", Json.str sid)])))) =
        (s, ⟨200, okBody (idJson jid) (profileMissResult (Json.str sid)), none⟩)) ∧
    (mcp s fresh (some h) (some (mkPayload jid "tools/call"
        (some (profileParams [])))) =
      (s, ⟨200, okBody (idJson jid) (profileMissResult (Json.str "")), none⟩)) := by
  refine ⟨?_, ⟨_, rfl, rfl⟩, ?_, ?_⟩
  · intro sid profile hp
    simp only [mcp, mkPayload, parse_mkFields]
    rw [dispatch_toolsCall _ _ _ _ _ _ hv]
    simp only [toolsCall, Option.getD, toolsCallResp_profile, hp]
  · intro sid hp
    simp only [mcp, mkPayload, parse_mkFields]
    rw [dispatch_toolsCall _ _ _ _ _ _ hv]
    simp only [toolsCall, Option.getD, toolsCallResp_profile, hp]
  · simp only [mcp, mkPayload, parse_mkFields]
    rw [dispatch_toolsCall _ _ _ _ _ _ hv]
    rfl

/-- Witness for C2: live session `k`, hit on `student_en_001`, miss on
`nonexistent`, and the missing-argument call. -/
theorem get_student_profile_behavior_witness :
    mcp [("k", false)] "f" (some "k") (some (mkPayload (some "7") "tools/call"
        (some (profileParams [("student_id", Json.str "student_en_001")])))) =
      ([("k", false)],
       ⟨200, okBody (idJson (some "7"))
         (profileHitResult (Json.obj [
           ("id", Json.str "student_en_001"), ("first_name", Json.str "Ava"),
           ("last_name", Json.str "Johnson"), ("language", Json.str "en"),
           ("eligible_fafsa", Json.bool true), ("year", Json.str "2025–26"),
           ("dependency", Json.str "dependent"),
           ("parent_status_2023", Json.str "divorced"),
           ("contributors_expected", Json.num 2),
           ("schools", Json.arr [Json.str "Harvard University"])])), none⟩) ∧
    mcp [("k", false)] "f" (some "k") (some (mkPayload (some "7") "tools/call"
        (some (profileParams [("student_id", Json.str "nonexistent")])))) =
      ([("k", false)],
       ⟨200, okBody (idJson (some "7")) (profileMissResult (Json.str "nonexistent")),
        none⟩) ∧
    mcp [("k", false)] "f" (some "k") (some (mkPayload (some "7") "tools/call"
        (some (profileParams [])))) =
      ([("k", false)],
       ⟨200, okBody (idJson (some "7")) (profileMissResult (Json.str "")), none⟩) :=
  ⟨(get_student_profile_behavior [("k", false)] "f" "k" (some "7") rfl).1
     "student_en_001" _ rfl,
   (get_student_profile_behavior [("k", false)] "f" "k" (some "7") rfl).2.2.1
     "nonexistent" rfl,
   (get_student_profile_behavior [("k", false)] "f" "k" (some "7") rfl).2.2.2⟩

lemma dispatch_invalid_session (s : Sessions) (fresh : String) (hdr : Option String)
    (req : JsonRpcReq) (hm : req.method ≠ "initialize")
    (hv : sessionInvalid s hdr = true) :
    dispatch s fresh hdr req =
      (s, ⟨400, errBody (idJson req.id) (-32000) "Missing or invalid session" none,
          none⟩) := by
  unfold dispatch
  rw [if_neg hm]
  simp only [hv, if_true]

/-- C4: after a successful `initialize`, a `notifications/initialized` bearing
the issued identifier is answered 202 with the empty object body and flips the
session's ready flag to true; a `tools/list` with the same identifier then
succeeds with the two tool descriptors; and readiness is never a gate: for
any store, marking any session ready leaves the response of every validated
`tools/list`/`tools/call` request unchanged. -/
theorem initialized_notification_flow (s : Sessions) (f1 f2 f3 : String)
    (jid1 jid2 jid3 : Option String) (hf : f1 ≠ "") :
    (let r1 := mcp s f1 none (some (mkPayload jid1 "initialize" (some validInitParams)))
     let r2 := mcp r1.1 f2 (some f1) (some (mkPayload jid2 "notifications/initialized" none))
     let r3 := mcp r2.1 f3 (some f1) (some (mkPayload jid3 "tools/list" none))
     r1.2.sessionHeader = some f1 ∧ r1.2.status = 200 ∧
     r2.2 = ⟨202, Json.obj [], none⟩ ∧
     lookupS r2.1 f1 = some true ∧
     r3.2 = ⟨200, okBody (idJson jid3) (Json.obj [("tools", toolsList)]), none⟩) ∧
    (∀ (t : Sessions) (k fresh : String) (hdr : Option String)
       (fields : List (String × Json)) (req : JsonRpcReq),
       parseJsonRpcReq fields = Except.ok req →
       (req.method = "tools/list" ∨ req.method = "tools/call") →
       (mcp (setReady t k) fresh hdr (some (Json.obj fields))).2 =
         (mcp t fresh hdr (some (Json.obj fields))).2) := by
  constructor
  · have e1 : mcp s f1 none (some (mkPayload jid1 "initialize" (some validInitParams))) =
        (insertS s f1 false,
         ⟨200, okBody (idJson jid1) (Json.obj [
            ("protocolVersion", Json.str "2024-11-05"),
            ("capabilities", Json.obj []),
            ("sessionId", Json.str f1)]),
          some f1⟩) := by
      simp only [mcp, mkPayload, parse_mkFields]
      exact dispatch_initialize_ok _ _ _ _ _ _ rfl
    have hl1 : lookupS (insertS s f1 false) f1 = some false := lookupS_insertS_self s f1 false
    have hv1 : sessionInvalid (insertS s f1 false) (some f1) = false := by
      simp [sessionInvalid, hf, hl1]
    have e2 : mcp (insertS s f1 false) f2 (some f1)
        (some (mkPayload jid2 "notifications/initialized" none)) =
        (setReady (insertS s f1 false) f1, ⟨202, Json.obj [], none⟩) := by
      simp only [mcp, mkPayload, parse_mkFields]
      exact dispatch_notifications _ _ _ _ _ _ hv1
    have hl2 : lookupS (setReady (insertS s f1 false) f1) f1 = some true := by
      rw [lookupS_setReady, hl1]
      simp
    have hv2 : sessionInvalid (setReady (insertS s f1 false) f1) (some f1) = false := by
      simp [sessionInvalid, hf, hl2]
    have e3 : mcp (setReady (insertS s f1 false) f1) f3 (some f1)
        (some (mkPayload jid3 "tools/list" none)) =
        (setReady (insertS s f1 false) f1,
         ⟨200, okBody (idJson jid3) (Json.obj [("tools", toolsList)]), none⟩) := by
      simp only [mcp, mkPayload, parse_mkFields]
      exact dispatch_toolsList _ _ _ _ _ _ hv2
    simp only [e1, e2, e3]
    exact ⟨trivial, trivial, trivial, hl2, trivial⟩
  · intro t k fresh hdr fields req hp hm
    obtain ⟨j, rid, m, ps⟩ := req
    simp only [mcp, hp]
    simp only at hm
    by_cases hvv : sessionInvalid t hdr = true
    · have hvv' : sessionInvalid (setReady t k) hdr = true := by
        rw [sessionInvalid_setReady]; exact hvv
      have hni : m ≠ "initialize" := by
        rcases hm with rfl | rfl <;> decide
      rw [dispatch_invalid_session _ _ _ _ hni hvv,
          dispatch_invalid_session _ _ _ _ hni hvv']
    · have hvf : sessionInvalid t hdr = false := by
        cases hq : sessionInvalid t hdr
        · rfl
        · exact absurd hq hvv
      have hvf' : sessionInvalid (setReady t k) hdr = false := by
        rw [sessionInvalid_setReady]; exact hvf
      rcases hm with rfl | rfl
      · rw [dispatch_toolsList _ _ _ _ _ _ hvf, dispatch_toolsList _ _ _ _ _ _ hvf']
      · rw [dispatch_toolsCall _ _ _ _ _ _ hvf, dispatch_toolsCall _ _ _ _ _ _ hvf']
        rfl

/-- Witness for C4: full handshake on the empty store with fresh id `a`, and
readiness-independence of a concrete `tools/list`. -/
theorem initialized_notification_flow_witness :
    (let r1 := mcp [] "a" none (some (mkPayload none "initialize" (some validInitParams)))
     let r2 := mcp r1.1 "b" (some "a") (some (mkPayload none "notifications/initialized" none))
     let r3 := mcp r2.1 "c" (some "a") (some (mkPayload none "tools/list" none))
     r1.2.sessionHeader = some "a" ∧ r1.2.status = 200 ∧
     r2.2 = ⟨202, Json.obj [], none⟩ ∧
     lookupS r2.1 "a" = some true ∧
     r3.2 = ⟨200, okBody (idJson none) (Json.obj [("tools", toolsList)]), none⟩) ∧
    (mcp (setReady [("x", false)] "x") "f" (some "x")
        (some (Json.obj (mkFields none "tools/list" none)))).2 =
      (mcp [("x", false)] "f" (some "x")
        (some (Json.obj (mkFields none "tools/list" none)))).2 :=
  ⟨(initialized_notification_flow [] "a" "b" "c" none none none (by decide)).1,
   (initialized_notification_flow [] "a" "b" "c" none none none (by decide)).2
     [("x", false)] "x" "f" (some "x") (mkFields none "tools/list" none)
     ⟨"2.0", none, "tools/list", none⟩ (parse_mkFields none "tools/list" none)
     (Or.inl rfl)⟩

lemma dispatch_state_or_error (s : Sessions) (fresh : String) (hdr : Option String)
    (req : JsonRpcReq) :
    (dispatch s fresh hdr req).1 = s ∨
    hasError (dispatch s fresh hdr req).2.body = false := by
  unfold dispatch
  by_cases m1 : req.method = "initialize"
  · rw [if_pos m1]
    rcases validateInitializeParams (req.params.getD []) with e | u
    · left; rfl
    · cases u; right; exact hasError_okBody _ _
  · rw [if_neg m1]
    by_cases hv : sessionInvalid s hdr = true
    · simp only [hv, if_true]
      left
      trivial
    · have hvf : sessionInvalid s hdr = false := by
        cases hq : sessionInvalid s hdr
        · rfl
        · exact absurd hq hv
      simp only [hvf, Bool.false_eq_true, if_false]
      by_cases m2 : req.method = "notifications/initialized"
      · rw [if_pos m2]; right; rfl
      · rw [if_neg m2]
        by_cases m3 : req.method = "tools/list"
        · rw [if_pos m3]; left; rfl
        · rw [if_neg m3]
          by_cases m4 : req.method = "tools/call"
          · rw [if_pos m4]; left; rfl
          · rw [if_neg m4]; left; rfl

/-- C9: whenever the handler answers with an error envelope (any of -32700,
-32600, -32000, -32601, -32602), the session store comes back unchanged: no
session is created or removed and no ready flag moves. -/
theorem error_responses_leave_store (s : Sessions) (fresh : String)
    (hdr : Option String) (payload : Option Json)
    (he : hasError (mcp s fresh hdr payload).2.body = true) :
    (mcp s fresh hdr payload).1 = s := by
  cases payload with
  | none => rfl
  | some v =>
    cases v with
    | null => rfl
    | bool b => rfl
    | num n => rfl
    | str t => rfl
    | arr xs => rfl
    | obj fields =>
      rcases hp : parseJsonRpcReq fields with e | req
      · simp [mcp, hp]
      · simp only [mcp, hp] at he ⊢
        rcases dispatch_state_or_error s fresh hdr req with h | h
        · exact h
        · rw [h] at he
          simp at he

/-- Witness for C9: the parse-error response on the empty store. -/
theorem error_responses_leave_store_witness :
    (mcp [] "f" none none).1 = [] :=
  error_responses_leave_store [] "f" none none rfl

lemma toolsCallResp_shape (rid : Json) (params : List (String × Json)) :
    (toolsCallResp rid params).status = 500 ∨
    (bodyField (toolsCallResp rid params).body "id" = some rid ∧
     exactlyOneOf (toolsCallResp rid params).body = true) := by
  unfold toolsCallResp
  repeat' split
  all_goals
    first
      | (left; rfl)
      | (right; exact ⟨rfl, rfl⟩)

lemma dispatch_body_shape (s : Sessions) (fresh : String) (hdr : Option String)
    (req : JsonRpcReq) :
    (dispatch s fresh hdr req).2.status = 500 ∨
    (dispatch s fresh hdr req).2.body = Json.obj [] ∨
    (bodyField (dispatch s fresh hdr req).2.body "id" = some (idJson req.id) ∧
     exactlyOneOf (dispatch s fresh hdr req).2.body = true) := by
  unfold dispatch
  by_cases m1 : req.method = "initialize"
  · rw [if_pos m1]
    rcases validateInitializeParams (req.params.getD []) with e | u
    · right; right; exact ⟨rfl, rfl⟩
    · cases u; right; right; exact ⟨rfl, rfl⟩
  · rw [if_neg m1]
    by_cases hv : sessionInvalid s hdr = true
    · simp only [hv, if_true]
      right; right; exact ⟨rfl, rfl⟩
    · have hvf : sessionInvalid s hdr = false := by
        cases hq : sessionInvalid s hdr
        · rfl
        · exact absurd hq hv
      simp only [hvf, Bool.false_eq_true, if_false]
      by_cases m2 : req.method = "notifications/initialized"
      · rw [if_pos m2]; right; left; rfl
      · rw [if_neg m2]
        by_cases m3 : req.method = "tools/list"
        · rw [if_pos m3]; right; right; exact ⟨rfl, rfl⟩
        · rw [if_neg m3]
          by_cases m4 : req.method = "tools/call"
          · rw [if_pos m4]
            rcases toolsCallResp_shape (idJson req.id) (req.params.getD []) with h | h
            · left; exact h
            · right; right; exact h
          · rw [if_neg m4]; right; right; exact ⟨rfl, rfl⟩

lemma parse_fails_of_bad_id (fields : List (String × Json)) (v : Json)
    (hid : getField fields "id" = some v)
    (hs : ∀ t, v ≠ Json.str t) (hn : v ≠ Json.null) :
    ∃ e, parseJsonRpcReq fields = Except.error e := by
  have hidv : vOptStrField fields "id" =
      Except.error ("id" ++ ": Input should be a valid string") := by
    unfold vOptStrField
    rw [hid]
    cases v with
    | null => exact absurd rfl hn
    | str t => exact absurd rfl (hs t)
    | bool b => rfl
    | num n => rfl
    | arr xs => rfl
    | obj fs => rfl
  unfold parseJsonRpcReq
  rcases h1 : vStrField fields "jsonrpc" with e1 | j <;>
    rcases h3 : vStrField fields "method" with e3 | m <;>
    rcases h4 : vOptObjField fields "params" with e4 | p <;>
    rw [hidv] <;>
    exact ⟨_, rfl⟩

/-- C6 (counterexample): a request carrying the JSON number `5` as its id —
a value the JSON-RPC convention allows — is not echoed: pydantic restricts
`id` to `Optional[str]`, so the whole envelope is rejected with -32600, HTTP
400 and a null id, although the request parsed, named a valid method and
presented a live session. -/
theorem numeric_id_rejected_not_echoed :
    bodyField (mcp [("k", false)] "f" (some "k") (some (Json.obj
      [("jsonrpc", Json.str "2.0"), ("id", Json.num 5),
       ("method", Json.str "tools/list")]))).2.body "id" = some Json.null ∧
    errorCode (mcp [("k", false)] "f" (some "k") (some (Json.obj
      [("jsonrpc", Json.str "2.0"), ("id", Json.num 5),
       ("method", Json.str "tools/list")]))).2.body = some (Json.num (-32600)) ∧
    (mcp [("k", false)] "f" (some "k") (some (Json.obj
      [("jsonrpc", Json.str "2.0"), ("id", Json.num 5),
       ("method", Json.str "tools/list")]))).2.status = 400 :=
  ⟨rfl, rfl, rfl⟩

/-- C6 (amended): every JSON body the dispatcher produces is the empty
object (notification acknowledgement), a crash body (HTTP 500), or an
envelope with exactly one of `result`/`error`; when the envelope validates,
the response id echoes the request id (string ids verbatim, absent or null
ids as null); a body whose `id` is any other JSON type is rejected during
validation with -32600, HTTP 400 and null id; and every parse or validation
failure carries a null id. -/
theorem envelope_exclusive_result_error_and_id (s : Sessions) (fresh : String)
    (hdr : Option String) :
    (∀ payload, (mcp s fresh hdr payload).2.status = 500 ∨
       (mcp s fresh hdr payload).2.body = Json.obj [] ∨
       exactlyOneOf (mcp s fresh hdr payload).2.body = true) ∧
    (∀ fields req, parseJsonRpcReq fields = Except.ok req →
       (mcp s fresh hdr (some (Json.obj fields))).2.status = 500 ∨
       (mcp s fresh hdr (some (Json.obj fields))).2.body = Json.obj [] ∨
       bodyField (mcp s fresh hdr (some (Json.obj fields))).2.body "id" =
         some (idJson req.id)) ∧
    (∀ fields e, parseJsonRpcReq fields = Except.error e →
       bodyField (mcp s fresh hdr (some (Json.obj fields))).2.body "id" =
         some Json.null) ∧
    (bodyField (mcp s fresh hdr none).2.body "id" = some Json.null) ∧
    (∀ v, isObj v = false →
       bodyField (mcp s fresh hdr (some v)).2.body "id" = some Json.null) ∧
    (∀ fields v, getField fields "id" = some v → (∀ t, v ≠ Json.str t) →
       v ≠ Json.null →
       errorCode (mcp s fresh hdr (some (Json.obj fields))).2.body =
         some (Json.num (-32600)) ∧
       bodyField (mcp s fresh hdr (some (Json.obj fields))).2.body "id" =
         some Json.null ∧
       (mcp s fresh hdr (some (Json.obj fields))).2.status = 400) := by
  refine ⟨?_, ?_, ?_, rfl, ?_, ?_⟩
  · intro payload
    cases payload with
    | none => right; right; rfl
    | some v =>
      cases v with
      | null => right; right; rfl
      | bool b => right; right; rfl
      | num n => right; right; rfl
      | str t => right; right; rfl
      | arr xs => right; right; rfl
      | obj fields =>
        rcases hp : parseJsonRpcReq fields with e | req
        · simp only [mcp, hp]
          right; right
          exact exactlyOneOf_errBody Json.null (-32600) "Invalid Request" (some e)
        · simp only [mcp, hp]
          rcases dispatch_body_shape s fresh hdr req with h | h | h
          · left; exact h
          · right; left; exact h
          · right; right; exact h.2
  · intro fields req hp
    simp only [mcp, hp]
    rcases dispatch_body_shape s fresh hdr req with h | h | h
    · left; exact h
    · right; left; exact h
    · right; right; exact h.1
  · intro fields e hp
    simp only [mcp, hp]
    exact bodyField_errBody_id Json.null (-32600) "Invalid Request" (some e)
  · intro v hv
    cases v with
    | null => rfl
    | bool b => rfl
    | num n => rfl
    | str t => rfl
    | arr xs => rfl
    | obj fields => simp [isObj] at hv
  · intro fields v hid hs hn
    obtain ⟨e, he⟩ := parse_fails_of_bad_id fields v hid hs hn
    simp only [mcp, he]
    exact ⟨errorCode_errBody Json.null (-32600) "Invalid Request" (some e),
           bodyField_errBody_id Json.null (-32600) "Invalid Request" (some e),
           trivial⟩

/-- Witness for the amended C6 at concrete inputs: a validated `tools/list`
request with a string id, a body lacking `method`, and a boolean id. -/
theorem envelope_exclusive_result_error_and_id_witness :
    ((mcp [("k", false)] "f" (some "k")
        (some (mkPayload (some "9") "tools/list" none))).2.status = 500 ∨
     (mcp [("k", false)] "f" (some "k")
        (some (mkPayload (some "9") "tools/list" none))).2.body = Json.obj [] ∨
     exactlyOneOf (mcp [("k", false)] "f" (some "k")
        (some (mkPayload (some "9") "tools/list" none))).2.body = true) ∧
    ((mcp [("k", false)] "f" (some "k")
        (some (mkPayload (some "9") "tools/list" none))).2.status = 500 ∨
     (mcp [("k", false)] "f" (some "k")
        (some (mkPayload (some "9") "tools/list" none))).2.body = Json.obj [] ∨
     bodyField (mcp [("k", false)] "f" (some "k")
        (some (mkPayload (some "9") "tools/list" none))).2.body "id" =
       some (idJson (some "9"))) ∧
    (errorCode (mcp [("k", false)] "f" (some "k") (some (Json.obj
        [("jsonrpc", Json.str "2.0"), ("id", Json.bool true),
         ("method", Json.str "tools/list")]))).2.body = some (Json.num (-32600)) ∧
     bodyField (mcp [("k", false)] "f" (some "k") (some (Json.obj
        [("jsonrpc", Json.str "2.0"), ("id", Json.bool true),
         ("method", Json.str "tools/list")]))).2.body "id" = some Json.null ∧
     (mcp [("k", false)] "f" (some "k") (some (Json.obj
        [("jsonrpc", Json.str "2.0"), ("id", Json.bool true),
         ("method", Json.str "tools/list")]))).2.status = 400) :=
  ⟨(envelope_exclusive_result_error_and_id [("k", false)] "f" (some "k")).1
     (some (mkPayload (some "9") "tools/list" none)),
   (envelope_exclusive_result_error_and_id [("k", false)] "f" (some "k")).2.1
     (mkFields (some "9") "tools/list" none) ⟨"2.0", some "9", "tools/list", none⟩
     (parse_mkFields (some "9") "tools/list" none),
   (envelope_exclusive_result_error_and_id [("k", false)] "f" (some "k")).2.2.2.2.2
     [("jsonrpc", Json.str "2.0"), ("id", Json.bool true),
      ("method", Json.str "tools/list")] (Json.bool true) rfl
     (fun _ h => Json.noConfusion h) (fun h => Json.noConfusion h)⟩
